import Mathlib

/-!
Shallow embedding of `src/worker.py` (classes `WorkerManager` and `Worker`)
from the ip-address-sensor repository, together with theorems settling the
spec claims about the pipeline worker.

Modelling conventions:
* numpy arrays (`NDArray`) are the free algebra `NDArr` over the opaque
  external image operations the worker calls (`cv2.cvtColor(..., BGR2RGB)`,
  `cv2.resize`, frames delivered by the device, `packet.points`);
  `NDArr.emptyArr` is `np.array([])`, the empty sentinel.
* Exceptions surfaced by the device SDK during one `_pipeline_loop`
  invocation are summarised by a `SessionOutcome`; the `try` block either
  raises (at session open, node build, or some drain iteration) or runs
  until `manager.running` becomes false.
* Thread bodies (`Worker.run`, `WorkerManager.run`) are folded over lists
  describing what the environment does on each iteration.  `Except` return
  types record whether an exception escapes the body (terminating the
  thread) or it returns normally.
-/

namespace OakWorker

/-- Stream name constants, worker.py lines 16-19. -/
def RGB_STREAM_NAME : String := "rgb"

def DEPTH_STREAM_NAME : String := "depth"

def RIGHT_STREAM_NAME : String := "right"

def LEFT_STREAM_NAME : String := "left"

/-- Python exceptions relevant to the worker, per the spec's error taxonomy.
All of them are ordinary `Exception` subclasses, so Python's
`except Exception` catches every one of them. -/
inductive PyError where
  | sessionOpenError
  | pipelineBuildError
  | drainError
  | reconfigureActionError
deriving DecidableEq, Repr

/-- numpy arrays as the free algebra over the opaque external operations the
worker applies to them.  `emptyArr` is `np.array([])`. -/
inductive NDArr where
  | emptyArr
  | deviceFrame (id : Nat)
  | cvtColorBGR2RGB (src : NDArr)
  | resize (src : NDArr) (w h : Nat)
  | pcdPoints (id : Nat)
deriving DecidableEq, Repr

/-- State of a `WorkerManager` (worker.py 21-43): the fields set in
`__init__` plus whether `Thread.start()` has been called on it. -/
structure WorkerManagerState where
  needs_reconfigure : Bool
  running : Bool
  thread_started : Bool
deriving DecidableEq, Repr

/-- `WorkerManager.__init__` (worker.py 22-30): `needs_reconfigure = False`,
`running = True`; the thread is not yet started. -/
def WorkerManager_init : WorkerManagerState :=
  { needs_reconfigure := false, running := true, thread_started := false }

/-- `Thread.start()` on the manager: its `run` loop begins executing. -/
def WorkerManager_start (m : WorkerManagerState) : WorkerManagerState :=
  { m with thread_started := true }

/-- `WorkerManager.stop` (worker.py 41-43). -/
def WorkerManager_stop (m : WorkerManagerState) : WorkerManagerState :=
  { m with running := false }

/-- The argument of `time.sleep` at the end of each manager tick
(worker.py 39). -/
def manager_tick_sleep_seconds : Nat := 5

/-- One iteration of the `while self.running` body of `WorkerManager.run`
(worker.py 34-39).  `cb` is the behaviour of the externally supplied
`self.reconfigure` callback on this tick (it either returns or raises).
Returns `.error e` when an exception escapes the iteration — there is no
`try`/`except` in `WorkerManager.run`, so a raising callback propagates —
and otherwise the state together with whether the callback was invoked. -/
def WorkerManager_tick (m : WorkerManagerState) (cb : Except PyError Unit) :
    Except PyError (WorkerManagerState × Bool) :=
  if m.needs_reconfigure then
    match cb with
    | .ok () => .ok (m, true)
    | .error e => .error e
  else
    .ok (m, false)

/-- `WorkerManager.run` (worker.py 32-39), folded over a list giving the
callback's behaviour on each tick.  Returns `.error e` if an exception
escapes the loop (the thread dies), else the final state and the number of
callback invocations made. -/
def WorkerManager_run :
    WorkerManagerState → List (Except PyError Unit) →
      Except PyError (WorkerManagerState × Nat)
  | m, [] => .ok (m, 0)
  | m, cb :: rest =>
    if m.running then
      match WorkerManager_tick m cb with
      | .error e => .error e
      | .ok (m1, invoked) =>
        match WorkerManager_run m1 rest with
        | .error e => .error e
        | .ok (mf, k) => .ok (mf, if invoked then k + 1 else k)
    else
      .ok (m, 0)

/-- What the `try` block of one `Worker._pipeline_loop` invocation does:
raise while opening the `OakCamera` session, raise while building the
pipeline nodes, raise on some drain iteration, or run the drain loop until
`manager.running` is false. -/
inductive SessionOutcome where
  | raisesOpen
  | raisesBuild
  | raisesDrain (iteration : Nat)
  | runsToStop
deriving DecidableEq, Repr

/-- The exception (if any) surfaced by the `try` block of
`Worker._pipeline_loop` (worker.py 88-99) for a given outcome. -/
def try_block_result : SessionOutcome → Except PyError Unit
  | .raisesOpen => .error .sessionOpenError
  | .raisesBuild => .error .pipelineBuildError
  | .raisesDrain _ => .error .drainError
  | .runsToStop => .ok ()

/-- The value assigned to the local variable `failures` at the top of every
`Worker._pipeline_loop` invocation (worker.py 87: `failures = 0`). -/
def initial_failures : Nat := 0

/-- `Worker._pipeline_loop` (worker.py 86-108) restricted to its effect on
the shared manager state.  The local `failures` starts at 0 on every
invocation; the single `except Exception` clause catches any exception from
open/build/drain, increments `failures`, and sets
`manager.needs_reconfigure` only when `failures > 3`.  Returns `.error`
only if an exception escapes the method (none can: the handler is total
over `PyError`), else the new manager state and the final value of
`failures`. -/
def pipeline_loop (m : WorkerManagerState) (outcome : SessionOutcome) :
    Except PyError (WorkerManagerState × Nat) :=
  let failures := initial_failures
  match try_block_result outcome with
  | .ok () => .ok (m, failures)
  | .error _e =>
    let failures := failures + 1
    if failures > 3 then
      .ok ({ m with needs_reconfigure := true }, failures)
    else
      .ok (m, failures)

/-- `Worker.run` (worker.py 110-115): `while self.manager.running:
self._pipeline_loop()`, folded over the outcomes of successive
`_pipeline_loop` invocations.  Returns the final manager state and the
number of `_pipeline_loop` invocations (= session open / rebuild
attempts) made. -/
def Worker_run :
    WorkerManagerState → List SessionOutcome → WorkerManagerState × Nat
  | m, [] => (m, 0)
  | m, o :: rest =>
    if m.running then
      match pipeline_loop m o with
      | .ok (m1, _failures) =>
        let r := Worker_run m1 rest
        (r.1, r.2 + 1)
      | .error _ => (m, 1)
    else
      (m, 0)

/-- State of a `Worker` (worker.py 46-75): the configuration stored by
`__init__`, the three latest-frame slots, the owned manager, and whether
`Thread.start()` has been called on the worker itself. -/
structure WorkerState where
  height : Nat
  width : Nat
  frame_rate : Nat
  should_get_color : Bool
  should_get_depth : Bool
  color_image : NDArr
  depth_map : NDArr
  pcd : NDArr
  manager : WorkerManagerState
  thread_started : Bool
deriving Repr

/-- `Worker.__init__` (worker.py 51-75): stores the configuration, sets all
three slots to `np.array([])`, constructs a `WorkerManager` and calls
`.start()` on it.  The worker's own thread is not started here. -/
def Worker_init (height width frame_rate : Nat)
    (should_get_color should_get_depth : Bool) : WorkerState :=
  { height := height
    width := width
    frame_rate := frame_rate
    should_get_color := should_get_color
    should_get_depth := should_get_depth
    color_image := .emptyArr
    depth_map := .emptyArr
    pcd := .emptyArr
    manager := WorkerManager_start WorkerManager_init
    thread_started := false }

/-- `Worker.get_color_image` (worker.py 77-78). -/
def get_color_image (s : WorkerState) : NDArr := s.color_image

/-- `Worker.get_depth_map` (worker.py 80-81). -/
def get_depth_map (s : WorkerState) : NDArr := s.depth_map

/-- `Worker.get_pcd` (worker.py 83-84). -/
def get_pcd (s : WorkerState) : NDArr := s.pcd

/-- `Worker._set_current_image` (worker.py 178-180). -/
def set_current_image (s : WorkerState) (arr : NDArr) : WorkerState :=
  { s with color_image := arr }

/-- `Worker._set_current_depth_map` (worker.py 182-184). -/
def set_current_depth_map (s : WorkerState) (arr : NDArr) : WorkerState :=
  { s with depth_map := arr }

/-- `Worker._set_current_pcd` (worker.py 186-188): stores `packet.points`. -/
def set_current_pcd (s : WorkerState) (points : NDArr) : WorkerState :=
  { s with pcd := points }

/-- Parameters of a `oak.device.getOutputQueue(...)` call: stream name and
the optional `maxSize` / `blocking` keyword arguments. -/
structure QueueRequest where
  streamName : String
  maxSize : Option Nat
  blocking : Option Bool
deriving DecidableEq, Repr

/-- The queue request issued by `_handle_color_output` (worker.py 158):
`getOutputQueue('rgb')`, no keyword arguments. -/
def rgbQueueRequest : QueueRequest :=
  { streamName := RGB_STREAM_NAME, maxSize := none, blocking := none }

/-- The queue request issued by `_handle_depth_output` (worker.py 167):
`getOutputQueue('depth', maxSize=4, blocking=False)`. -/
def depthQueueRequest : QueueRequest :=
  { streamName := DEPTH_STREAM_NAME, maxSize := some 4, blocking := some false }

/-- `Worker._handle_color_output` (worker.py 156-163).  `tryGet` is the
device's non-blocking `tryGet` on the queue named by the request; a
returned array is the packet's `getCvFrame()`.  When a frame is present it
is converted BGR→RGB and stored via `_set_current_image`. -/
def handle_color_output (s : WorkerState)
    (tryGet : QueueRequest → Option NDArr) : WorkerState :=
  if s.should_get_color then
    match tryGet rgbQueueRequest with
    | some bgrFrame => set_current_image s (NDArr.cvtColorBGR2RGB bgrFrame)
    | none => s
  else s

/-- `Worker._handle_depth_output` (worker.py 165-172).  When a frame is
present it is resized with `cv2.resize(arr, (self.width, self.height))` and
stored via `_set_current_depth_map`. -/
def handle_depth_output (s : WorkerState)
    (tryGet : QueueRequest → Option NDArr) : WorkerState :=
  if s.should_get_depth then
    match tryGet depthQueueRequest with
    | some depthFrame =>
      set_current_depth_map s (NDArr.resize depthFrame s.width s.height)
    | none => s
  else s

/-- `Worker._handle_pcd_output` (worker.py 174-176): `oak.poll()` pumps
pending callbacks; the only registered callback is `_set_current_pcd`
(registered in `_add_pc_node` iff `should_get_depth`), receiving a
`PointcloudPacket` whose `points` field is `pcdPacket` here when one is
pending. -/
def handle_pcd_output (s : WorkerState) (pcdPacket : Option NDArr) :
    WorkerState :=
  if s.should_get_depth then
    match pcdPacket with
    | some pts => set_current_pcd s pts
    | none => s
  else s

/-- Environment input for one drain-loop iteration: what each queue's
`tryGet` returns, and the points of a pending point-cloud packet (if any)
delivered by `oak.poll()`. -/
structure DrainStep where
  tryGet : QueueRequest → Option NDArr
  pcdPacket : Option NDArr

/-- One iteration of the drain loop body (worker.py 96-99): color handler,
then depth handler, then point-cloud pump. -/
def drain_iteration (s : WorkerState) (st : DrainStep) : WorkerState :=
  handle_pcd_output
    (handle_depth_output (handle_color_output s st.tryGet) st.tryGet)
    st.pcdPacket

/-- The drain loop `while self.manager.running` (worker.py 96-99), folded
over per-iteration environment inputs. -/
def drain_run : WorkerState → List DrainStep → WorkerState
  | s, [] => s
  | s, st :: rest =>
    if s.manager.running then drain_run (drain_iteration s st) rest else s

/-- The color camera node built by `_add_camera_rgb_node` (worker.py
121-129): preview size `(width, height)`, fps `frame_rate`, preview linked
to an XLinkOut with stream name `'rgb'`. -/
structure ColorNode where
  previewWidth : Nat
  previewHeight : Nat
  fps : Nat
  outStreamName : String
deriving DecidableEq, Repr

/-- The stereo depth node built by `_add_depth_node` (worker.py 131-148):
fps `frame_rate`, optionally aligned to the color node, depth output linked
to stream `'depth'`, with left/right mono XLinkOuts. -/
structure StereoNode where
  fps : Nat
  alignedTo : Option ColorNode
  outStreamName : String
  leftStreamName : String
  rightStreamName : String
deriving DecidableEq, Repr

/-- The point-cloud node built by `_add_pc_node` (worker.py 150-154):
`oak.create_pointcloud(stereo=stereo, colorize=color)` plus registration of
`_set_current_pcd` as its packet callback. -/
structure PcNode where
  stereoInput : Option StereoNode
  colorize : Option ColorNode
  callbackIsSetCurrentPcd : Bool
deriving DecidableEq, Repr

/-- `Worker._add_camera_rgb_node` (worker.py 121-129): builds the color
node iff `should_get_color`; a Python method without an executed `return`
yields `None`. -/
def add_camera_rgb_node (s : WorkerState) : Option ColorNode :=
  if s.should_get_color then
    some { previewWidth := s.width
           previewHeight := s.height
           fps := s.frame_rate
           outStreamName := RGB_STREAM_NAME }
  else none

/-- `Worker._add_depth_node` (worker.py 131-148): builds the stereo node
iff `should_get_depth`; `config_stereo(align=color)` is applied iff
`should_get_color`. -/
def add_depth_node (s : WorkerState) (color : Option ColorNode) :
    Option StereoNode :=
  if s.should_get_depth then
    some { fps := s.frame_rate
           alignedTo := if s.should_get_color then color else none
           outStreamName := DEPTH_STREAM_NAME
           leftStreamName := LEFT_STREAM_NAME
           rightStreamName := RIGHT_STREAM_NAME }
  else none

/-- `Worker._add_pc_node` (worker.py 150-154): builds the point-cloud node
iff `should_get_depth`, passing the (possibly `None`) color component as
`colorize` and registering `_set_current_pcd` as the callback. -/
def add_pc_node (s : WorkerState) (color : Option ColorNode)
    (stereo : Option StereoNode) : Option PcNode :=
  if s.should_get_depth then
    some { stereoInput := stereo
           colorize := color
           callbackIsSetCurrentPcd := true }
  else none

/-- The node-building prefix of `_pipeline_loop` (worker.py 91-93). -/
def build_pipeline (s : WorkerState) :
    Option ColorNode × Option StereoNode × Option PcNode :=
  let color := add_camera_rgb_node s
  let stereo := add_depth_node s color
  let pc := add_pc_node s color stereo
  (color, stereo, pc)

/-- The last element of a list of stored values, or `d` when nothing was
stored. -/
def lastStored : List NDArr → NDArr → NDArr
  | [], d => d
  | a :: l, _ => lastStored l a

/-- The values stored into the color slot by successive drain iterations. -/
def color_stores (should_get_color : Bool) (steps : List DrainStep) :
    List NDArr :=
  steps.filterMap fun st =>
    if should_get_color then
      (st.tryGet rgbQueueRequest).map NDArr.cvtColorBGR2RGB
    else none

/-- The values stored into the depth slot by successive drain iterations. -/
def depth_stores (should_get_depth : Bool) (width height : Nat)
    (steps : List DrainStep) : List NDArr :=
  steps.filterMap fun st =>
    if should_get_depth then
      (st.tryGet depthQueueRequest).map fun f => NDArr.resize f width height
    else none

/-- The values stored into the point-cloud slot by successive drain
iterations. -/
def pcd_stores (should_get_depth : Bool) (steps : List DrainStep) :
    List NDArr :=
  steps.filterMap fun st => if should_get_depth then st.pcdPacket else none

theorem handle_color_output_eq (s : WorkerState)
    (g : QueueRequest → Option NDArr) :
    handle_color_output s g =
      { s with color_image :=
          if s.should_get_color then
            ((g rgbQueueRequest).map NDArr.cvtColorBGR2RGB).getD s.color_image
          else s.color_image } := by
  obtain ⟨h1, w1, f1, sgc, sgd, ci, dm, pc, mg, ts⟩ := s
  unfold handle_color_output set_current_image
  cases sgc
  · rfl
  · cases hg : g rgbQueueRequest <;> simp [hg]

theorem handle_depth_output_eq (s : WorkerState)
    (g : QueueRequest → Option NDArr) :
    handle_depth_output s g =
      { s with depth_map :=
          if s.should_get_depth then
            ((g depthQueueRequest).map
              (fun f => NDArr.resize f s.width s.height)).getD s.depth_map
          else s.depth_map } := by
  obtain ⟨h1, w1, f1, sgc, sgd, ci, dm, pc, mg, ts⟩ := s
  unfold handle_depth_output set_current_depth_map
  cases sgd
  · rfl
  · cases hg : g depthQueueRequest <;> simp [hg]

theorem handle_pcd_output_eq (s : WorkerState) (p : Option NDArr) :
    handle_pcd_output s p =
      { s with pcd :=
          if s.should_get_depth then p.getD s.pcd else s.pcd } := by
  obtain ⟨h1, w1, f1, sgc, sgd, ci, dm, pc, mg, ts⟩ := s
  unfold handle_pcd_output set_current_pcd
  cases sgd
  · rfl
  · cases hp : p <;> simp [hp]

theorem drain_iteration_eq (s : WorkerState) (st : DrainStep) :
    drain_iteration s st =
      { s with
        color_image :=
          if s.should_get_color then
            ((st.tryGet rgbQueueRequest).map
              NDArr.cvtColorBGR2RGB).getD s.color_image
          else s.color_image
        depth_map :=
          if s.should_get_depth then
            ((st.tryGet depthQueueRequest).map
              (fun f => NDArr.resize f s.width s.height)).getD s.depth_map
          else s.depth_map
        pcd :=
          if s.should_get_depth then st.pcdPacket.getD s.pcd else s.pcd } := by
  unfold drain_iteration
  rw [handle_color_output_eq, handle_depth_output_eq, handle_pcd_output_eq]

theorem drain_run_slots (steps : List DrainStep) (s : WorkerState)
    (h : s.manager.running = true) :
    (drain_run s steps).color_image =
      lastStored (color_stores s.should_get_color steps) s.color_image ∧
    (drain_run s steps).depth_map =
      lastStored (depth_stores s.should_get_depth s.width s.height steps)
        s.depth_map ∧
    (drain_run s steps).pcd =
      lastStored (pcd_stores s.should_get_depth steps) s.pcd := by
  induction steps generalizing s with
  | nil => simp [drain_run, color_stores, depth_stores, pcd_stores, lastStored]
  | cons st rest ih =>
    have hrun : (drain_iteration s st).manager.running = true := by
      rw [drain_iteration_eq]; exact h
    obtain ⟨ic, idm, ip⟩ := ih (drain_iteration s st) hrun
    have hstep : drain_run s (st :: rest) = drain_run (drain_iteration s st) rest := by
      simp [drain_run, h]
    rw [hstep]
    refine ⟨?_, ?_, ?_⟩
    · rw [ic, drain_iteration_eq]
      cases hc : s.should_get_color
      · simp [color_stores, List.filterMap_cons, hc]
      · cases hg : st.tryGet rgbQueueRequest <;>
          simp [color_stores, List.filterMap_cons, hc, hg, lastStored]
    · rw [idm, drain_iteration_eq]
      cases hd : s.should_get_depth
      · simp [depth_stores, List.filterMap_cons, hd]
      · cases hg : st.tryGet depthQueueRequest <;>
          simp [depth_stores, List.filterMap_cons, hd, hg, lastStored]
    · rw [ip, drain_iteration_eq]
      cases hd : s.should_get_depth
      · simp [pcd_stores, List.filterMap_cons, hd]
      · cases hp : st.pcdPacket <;>
          simp [pcd_stores, List.filterMap_cons, hd, hp, lastStored]

theorem color_stores_false (steps : List DrainStep) :
    color_stores false steps = [] := by
  induction steps with
  | nil => rfl
  | cons st rest ih => simp [color_stores, List.filterMap_cons] at ih ⊢

/-- `_pipeline_loop` never escalates and never raises: the local `failures`
restarts from 0 on every invocation and the `try` block surfaces at most
one exception, so the final count is 0 or 1, `failures > 3` is unreachable,
and the manager state is returned unchanged. -/
theorem pipeline_loop_eq (m : WorkerManagerState) (o : SessionOutcome) :
    pipeline_loop m o =
      .ok (m,
        match try_block_result o with
        | .ok _ => initial_failures
        | .error _ => initial_failures + 1) := by
  cases o <;> rfl

/-- `Worker.run` never changes the manager state: no outcome sequence sets
`needs_reconfigure` or stops the loop from inside. -/
theorem Worker_run_state (outs : List SessionOutcome)
    (m : WorkerManagerState) : (Worker_run m outs).1 = m := by
  induction outs generalizing m with
  | nil => rfl
  | cons o rest ih =>
    unfold Worker_run
    cases hr : m.running
    · simp [hr]
    · simp [hr, pipeline_loop_eq, ih]

/-- C1: the claim states that after 4 consecutive pipeline failures with no
intervening successful rebuild, `needs_reconfigure` becomes true exactly
once and no further session rebuild attempt occurs.  Evaluating the code at
that failing input shows the opposite: because `failures` is re-initialized
to 0 at the top of every `_pipeline_loop` invocation and the single
`except` clause catches at most one exception per invocation, after 4
consecutive failures (session-open, drain, build, drain) the flag is still
false, and a 5th rebuild attempt is made immediately. -/
theorem C1_escalation_unreachable :
    (Worker_run (WorkerManager_start WorkerManager_init)
        [.raisesOpen, .raisesDrain 0, .raisesBuild,
         .raisesDrain 1]).1.needs_reconfigure = false ∧
    (Worker_run (WorkerManager_start WorkerManager_init)
        [.raisesOpen, .raisesDrain 0, .raisesBuild, .raisesDrain 1,
         .raisesDrain 2]).2 = 5 :=
  ⟨rfl, rfl⟩

/-- C2: for every sequence of at most 3 consecutive pipeline failures the
reconfigure flag is never set, the counter's value at the start of each
`_pipeline_loop` invocation is 0 (`failures = 0`, worker.py 87), and one
invocation ends with the counter at most one above that reset value. -/
theorem C2_no_escalation_within_threshold (m : WorkerManagerState)
    (outs : List SessionOutcome) (hlen : outs.length ≤ 3)
    (hm : m.needs_reconfigure = false) :
    (Worker_run m outs).1.needs_reconfigure = false ∧
    initial_failures = 0 ∧
    (∀ o m1 n, pipeline_loop m o = .ok (m1, n) → n ≤ initial_failures + 1) := by
  refine ⟨?_, rfl, ?_⟩
  · rw [Worker_run_state]; exact hm
  · intro o m1 n hp
    rw [pipeline_loop_eq] at hp
    cases htr : try_block_result o <;> rw [htr] at hp <;>
      · simp only [Except.ok.injEq, Prod.mk.injEq, initial_failures] at hp
        simp only [initial_failures]
        omega

/-- Witness for C2 at a concrete 3-failure run. -/
theorem C2_no_escalation_within_threshold_witness :
    (Worker_run (WorkerManager_start WorkerManager_init)
        [.raisesOpen, .raisesBuild, .raisesDrain 0]).1.needs_reconfigure
      = false :=
  (C2_no_escalation_within_threshold (WorkerManager_start WorkerManager_init)
    [.raisesOpen, .raisesBuild, .raisesDrain 0] (by decide) rfl).1

/-- C3: every exception surfaced while opening the session, building the
pipeline, or draining is caught by the `except Exception` clause of
`_pipeline_loop`: the invocation always returns normally (`.ok`, so nothing
propagates to readers or to the caller of `start()`), and a surfaced
exception results in exactly one increment of the failure counter. -/
theorem C3_exceptions_contained (m : WorkerManagerState)
    (o : SessionOutcome) :
    (∃ m1 n, pipeline_loop m o = .ok (m1, n)) ∧
    (∀ e, try_block_result o = .error e →
      pipeline_loop m o = .ok (m, initial_failures + 1)) := by
  refine ⟨⟨m, _, pipeline_loop_eq m o⟩, ?_⟩
  intro e he
  rw [pipeline_loop_eq, he]

/-- Witness for C3 at a concrete drain failure. -/
theorem C3_exceptions_contained_witness :
    pipeline_loop (WorkerManager_start WorkerManager_init) (.raisesDrain 0)
      = .ok (WorkerManager_start WorkerManager_init, initial_failures + 1) :=
  (C3_exceptions_contained (WorkerManager_start WorkerManager_init)
    (.raisesDrain 0)).2 .drainError rfl

/-- C4 counterexample: the claim says the worker clears `needs_reconfigure`
on the next successful rebuild.  Starting from a manager with the flag set,
a fully successful `_pipeline_loop` invocation (a successful rebuild that
runs until stop) leaves the flag still true: no code path in the worker
ever resets it. -/
theorem C4_counterexample :
    (Worker_run
        { needs_reconfigure := true, running := true, thread_started := true }
        [.runsToStop]).1.needs_reconfigure = true :=
  rfl

/-- C4 (amended): when the watchdog observes the flag set on a tick it
invokes the reconfigure callback and leaves the flag set; the flag is never
cleared by the worker — it remains true after every subsequent sequence of
pipeline-loop invocations, successful rebuilds included. -/
theorem C4_watchdog_invokes_and_flag_stays (m : WorkerManagerState)
    (outs : List SessionOutcome) (hflag : m.needs_reconfigure = true) :
    WorkerManager_tick m (.ok ()) = .ok (m, true) ∧
    (Worker_run m outs).1.needs_reconfigure = true := by
  constructor
  · unfold WorkerManager_tick
    rw [hflag]
    exact rfl
  · rw [Worker_run_state]; exact hflag

/-- Witness for C4's amended theorem at a concrete flagged state. -/
theorem C4_watchdog_invokes_and_flag_stays_witness :
    WorkerManager_tick
        { needs_reconfigure := true, running := true, thread_started := true }
        (.ok ())
      = .ok ({ needs_reconfigure := true, running := true,
               thread_started := true }, true) ∧
    (Worker_run
        { needs_reconfigure := true, running := true, thread_started := true }
        [.runsToStop, .raisesDrain 0]).1.needs_reconfigure = true :=
  C4_watchdog_invokes_and_flag_stays
    { needs_reconfigure := true, running := true, thread_started := true }
    [.runsToStop, .raisesDrain 0] rfl

/-- C5 counterexample: the claim says a raising reconfigure callback is
surfaced as a diagnostic only and the watchdog keeps running, re-attempting
on the next tick.  Evaluating `WorkerManager.run` on a flagged state with a
callback that raises on the first tick and would succeed on the second
shows the exception escaping the loop instead (`WorkerManager.run` has no
`try`/`except`), so the second tick never happens. -/
theorem C5_counterexample :
    WorkerManager_run
        { needs_reconfigure := true, running := true, thread_started := true }
        [.error .reconfigureActionError, .ok ()]
      = .error .reconfigureActionError :=
  rfl

/-- C5 (amended): if the reconfigure callback raises on a tick of a running,
flagged watchdog, the callback is indeed not retried within that tick, but
the exception propagates out of the tick and out of the whole run loop
uncaught: the watchdog thread terminates and no later tick re-attempts the
callback. -/
theorem C5_callback_error_terminates_watchdog (m : WorkerManagerState)
    (e : PyError) (rest : List (Except PyError Unit))
    (hrun : m.running = true) (hflag : m.needs_reconfigure = true) :
    WorkerManager_tick m (.error e) = .error e ∧
    WorkerManager_run m (.error e :: rest) = .error e := by
  have ht : WorkerManager_tick m (.error e) = .error e := by
    unfold WorkerManager_tick
    rw [hflag]
    exact rfl
  refine ⟨ht, ?_⟩
  simp [WorkerManager_run, hrun, ht]

/-- Witness for C5's amended theorem at a concrete flagged state. -/
theorem C5_callback_error_terminates_watchdog_witness :
    WorkerManager_run
        { needs_reconfigure := true, running := true, thread_started := true }
        [.error .reconfigureActionError]
      = .error .reconfigureActionError :=
  (C5_callback_error_terminates_watchdog
    { needs_reconfigure := true, running := true, thread_started := true }
    .reconfigureActionError [] rfl rfl).2

/-- C6: with `capture_depth = true` and `capture_color = false` the
point-cloud node is built with a present stereo input but `colorize = None`,
the stereo node is not aligned to any color reference, and the color slot
stays the empty sentinel through any whole drain session; when color is
also requested the stereo node is aligned to exactly the built color
node. -/
theorem C6_conditional_wiring (height width frame_rate : Nat)
    (steps : List DrainStep) (h2 w2 f2 : Nat) :
    (∃ pc : PcNode,
        (build_pipeline (Worker_init height width frame_rate false true)).2.2
          = some pc ∧
        pc.colorize = none ∧ pc.stereoInput.isSome = true ∧
        pc.callbackIsSetCurrentPcd = true) ∧
    (∃ st : StereoNode,
        (build_pipeline (Worker_init height width frame_rate false true)).2.1
          = some st ∧
        st.alignedTo = none) ∧
    get_color_image
        (drain_run (Worker_init height width frame_rate false true) steps)
      = NDArr.emptyArr ∧
    (∃ (st2 : StereoNode) (c2 : ColorNode),
        (build_pipeline (Worker_init h2 w2 f2 true true)).2.1 = some st2 ∧
        add_camera_rgb_node (Worker_init h2 w2 f2 true true) = some c2 ∧
        st2.alignedTo = some c2) := by
  refine ⟨⟨_, rfl, rfl, rfl, rfl⟩, ⟨_, rfl, rfl⟩, ?_, ⟨_, _, rfl, rfl, rfl⟩⟩
  have hslots :=
    (drain_run_slots steps (Worker_init height width frame_rate false true)
      rfl).1
  rw [get_color_image, hslots]
  show lastStored (color_stores false steps) NDArr.emptyArr = NDArr.emptyArr
  rw [color_stores_false]
  rfl

/-- C7: in a drain-loop iteration, an available color frame is stored as
its BGR→RGB conversion, an available depth frame is stored resized to
`(width, height)`, and the depth queue is requested non-blocking with
bounded depth 4 (`maxSize=4, blocking=False`), the color queue by plain
try-get on the `'rgb'` stream. -/
theorem C7_drain_conversions (s : WorkerState) (st : DrainStep)
    (f g : NDArr) :
    (s.should_get_color = true → st.tryGet rgbQueueRequest = some f →
      (drain_iteration s st).color_image = NDArr.cvtColorBGR2RGB f) ∧
    (s.should_get_depth = true → st.tryGet depthQueueRequest = some g →
      (drain_iteration s st).depth_map
        = NDArr.resize g s.width s.height) ∧
    depthQueueRequest.maxSize = some 4 ∧
    depthQueueRequest.blocking = some false ∧
    rgbQueueRequest.streamName = RGB_STREAM_NAME ∧
    rgbQueueRequest.maxSize = none ∧ rgbQueueRequest.blocking = none ∧
    depthQueueRequest.streamName = DEPTH_STREAM_NAME := by
  refine ⟨?_, ?_, rfl, rfl, rfl, rfl, rfl, rfl⟩
  · intro hc hg
    rw [drain_iteration_eq]
    simp [hc, hg]
  · intro hd hg
    rw [drain_iteration_eq]
    simp [hd, hg]

/-- Witness for C7 with both captures enabled and both frames available. -/
theorem C7_drain_conversions_witness :
    (drain_iteration (Worker_init 480 640 30 true true)
        { tryGet := fun q =>
            if q.maxSize = some 4 then some (NDArr.deviceFrame 1)
            else some (NDArr.deviceFrame 0),
          pcdPacket := some (NDArr.pcdPoints 7) }).color_image
      = NDArr.cvtColorBGR2RGB (NDArr.deviceFrame 0) ∧
    (drain_iteration (Worker_init 480 640 30 true true)
        { tryGet := fun q =>
            if q.maxSize = some 4 then some (NDArr.deviceFrame 1)
            else some (NDArr.deviceFrame 0),
          pcdPacket := some (NDArr.pcdPoints 7) }).depth_map
      = NDArr.resize (NDArr.deviceFrame 1) 640 480 :=
  ⟨(C7_drain_conversions _ _ _ (NDArr.deviceFrame 1)).1 rfl rfl,
   (C7_drain_conversions _ _ (NDArr.deviceFrame 0) _).2.1 rfl rfl⟩

/-- C8: each getter is a total function of the worker state (it cannot
raise or block), returns the slot value in every state, returns the empty
sentinel right after construction, and after any drain execution returns
the most recently stored frame for its slot — or the empty sentinel when
nothing was captured since construction. -/
theorem C8_getters_latest_or_empty (height width frame_rate : Nat)
    (sc sd : Bool) (steps : List DrainStep) :
    (∀ s : WorkerState,
      get_color_image s = s.color_image ∧
      get_depth_map s = s.depth_map ∧
      get_pcd s = s.pcd) ∧
    get_color_image (Worker_init height width frame_rate sc sd)
      = NDArr.emptyArr ∧
    get_depth_map (Worker_init height width frame_rate sc sd)
      = NDArr.emptyArr ∧
    get_pcd (Worker_init height width frame_rate sc sd) = NDArr.emptyArr ∧
    get_color_image
        (drain_run (Worker_init height width frame_rate sc sd) steps)
      = lastStored (color_stores sc steps) NDArr.emptyArr ∧
    get_depth_map
        (drain_run (Worker_init height width frame_rate sc sd) steps)
      = lastStored (depth_stores sd width height steps) NDArr.emptyArr ∧
    get_pcd (drain_run (Worker_init height width frame_rate sc sd) steps)
      = lastStored (pcd_stores sd steps) NDArr.emptyArr := by
  obtain ⟨hc, hd, hp⟩ :=
    drain_run_slots steps (Worker_init height width frame_rate sc sd) rfl
  exact ⟨fun s => ⟨rfl, rfl, rfl⟩, rfl, rfl, rfl, hc, hd, hp⟩

/-- C10: `Worker.__init__` constructs a `WorkerManager` with
`running = True` and calls `.start()` on it before returning, so after
construction — `Worker.start()` not yet called — the watchdog thread is
already started and its loop sleeps 5 seconds per tick. -/
theorem C10_manager_started_on_construction (height width frame_rate : Nat)
    (sc sd : Bool) :
    (Worker_init height width frame_rate sc sd).manager.thread_started
      = true ∧
    (Worker_init height width frame_rate sc sd).manager.running = true ∧
    (Worker_init height width frame_rate sc sd).manager.needs_reconfigure
      = false ∧
    (Worker_init height width frame_rate sc sd).thread_started = false ∧
    manager_tick_sleep_seconds = 5 :=
  ⟨rfl, rfl, rfl, rfl, rfl⟩

end OakWorker
